import Mathlib

/-!
Shallow embedding of the company-research agent in
`src/agent/sample_agent/agent.py` and of the database MCP dispatcher in
`src/mcp_server/database_server.py`, together with theorems settling the
spec claims about them.

Python strings are modelled as Lean `String`; `str.lower`, `str.upper`
and `str.strip` are modelled character-wise (the repository only uses
ASCII data).  `needle in hay` is modelled by `strContains`.
-/

/-- Single-quote character, used when building the Python f-strings of the
source without writing a quote literal. -/
def pyQuote : String := String.singleton (Char.ofNat 39)

/-- Python `str.lower` (ASCII). -/
def pyLower (s : String) : String := ⟨s.data.map Char.toLower⟩

/-- Python `str.upper` (ASCII). -/
def pyUpper (s : String) : String := ⟨s.data.map Char.toUpper⟩

/-- Python whitespace recognised by `str.strip` (ASCII set). -/
def pyIsSpace (c : Char) : Bool :=
  c == Char.ofNat 32 || c == Char.ofNat 9 || c == Char.ofNat 10 ||
  c == Char.ofNat 13 || c == Char.ofNat 11 || c == Char.ofNat 12

/-- Python `str.strip`: drop whitespace from both ends. -/
def pyStrip (s : String) : String :=
  ⟨((s.data.dropWhile pyIsSpace).reverse.dropWhile pyIsSpace).reverse⟩

/-- `needle` is a leading segment of `hay` (character lists). -/
def leadMatch : List Char → List Char → Bool
  | [], _ => true
  | _ :: _, [] => false
  | a :: as, b :: bs => a == b && leadMatch as bs

/-- `needle` occurs contiguously somewhere in `hay` (character lists);
the empty needle always occurs, as for Python `in`. -/
def listContains (needle : List Char) : List Char → Bool
  | [] => leadMatch needle []
  | b :: t => leadMatch needle (b :: t) || listContains needle t

/-- Python substring test `needle in hay`. -/
def strContains (hay needle : String) : Bool :=
  listContains needle.data hay.data

/-- The approve keyword set of `check_approval_node`
(`agent.py` line 441). -/
def approveKeywords : List String :=
  ["approve", "yes", "proceed", "ok", "continue"]

/-- The deny keyword set of `check_approval_node`
(`agent.py` line 453). -/
def denyKeywords : List String :=
  ["deny", "no", "cancel", "stop"]

/-- `any(word in content for word in kws)`. -/
def matchesAny (content : String) (kws : List String) : Bool :=
  kws.any (fun w => strContains content w)

/-- Outcome of classifying a free-text approval response. -/
inductive ApprovalDecision where
  | approved
  | denied
  | unrecognized
  deriving DecidableEq, Repr

/-- The decision logic of `check_approval_node` (`agent.py` lines 437 and
441-465): lower and strip the response, test the approve keyword set first,
then the deny keyword set, otherwise unrecognized. -/
def classifyResponse (raw : String) : ApprovalDecision :=
  let c := pyStrip (pyLower raw)
  if matchesAny c approveKeywords then ApprovalDecision.approved
  else if matchesAny c denyKeywords then ApprovalDecision.denied
  else ApprovalDecision.unrecognized

example : classifyResponse "nope thanks" = ApprovalDecision.denied := by decide

example : classifyResponse "maybe" = ApprovalDecision.unrecognized := by decide

example : classifyResponse "  Yes please " = ApprovalDecision.approved := by decide

/-! ## Agent state and the approval-checking node (`agent.py`) -/

/-- A tool call as carried in a model response or in the pending queue:
`tool_call.get("name")` and `tool_call.get("args", {})`
(argument values are modelled as strings). -/
structure ToolCall where
  name : String
  args : List (String × String)
  deriving DecidableEq, Repr

/-- A transcript message; `content = none` models a message object without
a usable `content` attribute (the `hasattr` guard of `check_approval_node`),
`tool_calls` the tool calls attached to an `AIMessage`. -/
structure Msg where
  content : Option String
  tool_calls : List ToolCall
  deriving DecidableEq, Repr

/-- A CopilotKit frontend-action descriptor, compared by `action.get("name")`
in `chat_node`. -/
structure ActionDesc where
  name : String
  deriving DecidableEq, Repr

/-- The fields of `AgentState` used by the orchestration code: the message
transcript, the CopilotKit actions supplied in `state["copilotkit"]["actions"]`,
and the approval-gate fields `pending_tool_calls` / `awaiting_approval`
(`agent.py` lines 23-36). -/
structure AgentState where
  messages : List Msg
  copilotkit_actions : List ActionDesc
  pending_tool_calls : List ToolCall
  awaiting_approval : Bool
  deriving DecidableEq, Repr

/-- Target of a `Command(goto=...)` returned by a node. -/
inductive NodeGoto where
  | toolNode
  | chatNode
  | graphEnd
  deriving DecidableEq, Repr

/-- A `Command`: routing target plus the updated state. -/
structure NodeCommand where
  goto : NodeGoto
  state : AgentState
  deriving DecidableEq, Repr

/-- Content of the clarification `AIMessage` of `check_approval_node`
(`agent.py` line 466). -/
def clarificationText : String :=
  "I didn" ++ pyQuote ++ "t understand your response. Please reply with " ++
  pyQuote ++ "approve" ++ pyQuote ++ " to proceed or " ++ pyQuote ++ "deny" ++
  pyQuote ++ " to cancel."

/-- Content of the cancellation `AIMessage` of `check_approval_node`
(`agent.py` line 455). -/
def cancellationText : String :=
  "Tool execution cancelled as per your request. How else can I help you?"

/-- Content of the `AIMessage` carrying the approved tool calls
(`agent.py` line 444). -/
def executingText : String := "Executing approved tools..."

/-- `check_approval_node` (`agent.py` lines 424-476): read the last message;
with no messages or no content, end the turn clearing only the
awaiting-approval flag; otherwise classify the response and either forward
the pending calls to the tool node (approval), cancel (denial), or re-ask
(unrecognized). -/
def check_approval_node (s : AgentState) : NodeCommand :=
  match s.messages.getLast? with
  | none => ⟨NodeGoto.graphEnd, { s with awaiting_approval := false }⟩
  | some last =>
    match last.content with
    | none => ⟨NodeGoto.graphEnd, { s with awaiting_approval := false }⟩
    | some content =>
      match classifyResponse content with
      | ApprovalDecision.approved =>
        ⟨NodeGoto.toolNode,
          { s with
            messages := s.messages ++ [⟨some executingText, s.pending_tool_calls⟩],
            awaiting_approval := false,
            pending_tool_calls := [] }⟩
      | ApprovalDecision.denied =>
        ⟨NodeGoto.graphEnd,
          { s with
            messages := s.messages ++ [⟨some cancellationText, []⟩],
            awaiting_approval := false,
            pending_tool_calls := [] }⟩
      | ApprovalDecision.unrecognized =>
        ⟨NodeGoto.chatNode,
          { s with
            messages := s.messages ++ [⟨some clarificationText, []⟩],
            awaiting_approval := true }⟩

/-- Submitting a free-text approval response: the human reply is appended to
the transcript and `check_approval_node` runs on the resulting state. -/
def submit_response (s : AgentState) (r : String) : AgentState :=
  (check_approval_node { s with messages := s.messages ++ [⟨some r, []⟩] }).state

/-- The queue/flag invariant of the spec: the pending execution queue is
non-empty exactly when awaiting-approval is true. -/
def approvalInvariant (s : AgentState) : Prop :=
  s.pending_tool_calls ≠ [] ↔ s.awaiting_approval = true

/-! ## The chat node's routing and classification (`agent.py` lines 299-373) -/

/-- A model response as far as `chat_node` inspects it: whether it is an
`AIMessage`, its free-text content, and its requested tool calls. -/
structure ModelResponse where
  isAIMessage : Bool
  content : String
  tool_calls : List ToolCall
  deriving DecidableEq, Repr

/-- The transcript entry appended for a model response. -/
def respMsg (r : ModelResponse) : Msg := ⟨some r.content, r.tool_calls⟩

/-- `non_copilotkit_calls` (`agent.py` lines 310-313): the requested tool
calls whose name matches no supplied CopilotKit action name. -/
def non_copilotkit_calls (toolCalls : List ToolCall) (actions : List ActionDesc) :
    List ToolCall :=
  toolCalls.filter (fun tc => !(actions.any (fun a => a.name == tc.name)))

/-- The complement of `non_copilotkit_calls`: the requested tool calls whose
name matches some supplied CopilotKit action name (handled by CopilotKit,
not executed by the agent). -/
def copilotkit_matched_calls (toolCalls : List ToolCall) (actions : List ActionDesc) :
    List ToolCall :=
  toolCalls.filter (fun tc => actions.any (fun a => a.name == tc.name))

/-- The routing tail of `chat_node` (`agent.py` lines 299-373): if the
response is an `AIMessage` with tool calls of which at least one is not a
CopilotKit action, go to `tool_node` (auto-approve path, the update carrying
only the appended response); otherwise end the graph, again appending only
the response. -/
def chat_node (s : AgentState) (response : ModelResponse) : NodeCommand :=
  if response.isAIMessage && !response.tool_calls.isEmpty &&
      !(non_copilotkit_calls response.tool_calls s.copilotkit_actions).isEmpty then
    ⟨NodeGoto.toolNode, { s with messages := s.messages ++ [respMsg response] }⟩
  else
    ⟨NodeGoto.graphEnd, { s with messages := s.messages ++ [respMsg response] }⟩

/-- Names of the five backend tools registered in `tools`
(`agent.py` lines 184-190). -/
def registered_tool_names : List String :=
  ["search_companies_db", "search_company_openai", "get_company_news",
   "get_company_financials", "compare_companies"]

/-- `tool_args.get(key, "")`. -/
def argGet (args : List (String × String)) (key : String) : String :=
  (args.lookup key).getD ""

/-- Python `repr` of an argument dict with string values, as produced by
the f-string `f"... with args: \x7btool_args\x7d"`. -/
def pyDictRepr (args : List (String × String)) : String :=
  "\x7b" ++
  String.intercalate ", "
    (args.map (fun kv => pyQuote ++ kv.1 ++ pyQuote ++ ": " ++ pyQuote ++ kv.2 ++ pyQuote)) ++
  "\x7d"

/-- The human-readable per-call description built by `chat_node`
(`agent.py` lines 318-357): a specific template per known backend tool name
and a generic fallback. -/
def tool_description (name : String) (args : List (String × String)) : String :=
  if name == "search_companies_db" then
    "Search database for companies matching: " ++ pyQuote ++ argGet args "query" ++ pyQuote
  else if name == "search_company_openai" then
    "Get AI analysis for company: " ++ pyQuote ++ argGet args "company_name" ++ pyQuote
  else if name == "get_company_news" then
    "Get recent news for company: " ++ pyQuote ++ argGet args "company_name" ++ pyQuote
  else if name == "get_company_financials" then
    "Get financial data for company: " ++ pyQuote ++ argGet args "company_name" ++ pyQuote
  else if name == "compare_companies" then
    "Compare companies: " ++ pyQuote ++ argGet args "company1" ++ pyQuote ++
    " vs " ++ pyQuote ++ argGet args "company2" ++ pyQuote
  else
    "Execute " ++ name ++ " with args: " ++ pyDictRepr args

/-! ## The mock database search tool (`agent.py` lines 41-111) -/

/-- A company record with the fields of the mock data in
`search_companies_db`; field order follows the source dicts:
id, name, ticker_symbol, industry, sector, market_cap, employees,
founded_year, headquarters, website, description. -/
structure Company where
  id : Int
  name : String
  ticker_symbol : String
  industry : String
  sector : String
  market_cap : Int
  employees : Int
  founded_year : Int
  headquarters : String
  website : String
  description : String
  deriving DecidableEq, Repr

/-- First mock record (`agent.py` lines 58-70). -/
def appleInc : Company :=
  ⟨1, "Apple Inc.", "AAPL", "Consumer Electronics", "Technology",
   3000000000000, 164000, 1976, "Cupertino, CA", "https://www.apple.com",
   "Apple Inc. is an American multinational technology company specializing in consumer electronics, software, and online services."⟩

/-- Second mock record (`agent.py` lines 71-83). -/
def microsoftCorp : Company :=
  ⟨2, "Microsoft Corporation", "MSFT", "Software", "Technology",
   2800000000000, 221000, 1975, "Redmond, WA", "https://www.microsoft.com",
   "Microsoft Corporation is an American multinational technology corporation."⟩

/-- Third mock record (`agent.py` lines 84-96). -/
def teslaInc : Company :=
  ⟨3, "Tesla Inc.", "TSLA", "Electric Vehicles", "Consumer Discretionary",
   800000000000, 140000, 2003, "Austin, TX", "https://www.tesla.com",
   "Tesla, Inc. is an American electric vehicle and clean energy company."⟩

/-- The `mock_results` list (`agent.py` lines 57-97). -/
def mock_results : List Company := [appleInc, microsoftCorp, teslaInc]

/-- The filter predicate of `search_companies_db` (`agent.py` lines 100-104):
`query.lower() in result["name"].lower() or query.upper() in result["ticker_symbol"]`. -/
def companyMatches (query : String) (c : Company) : Bool :=
  strContains (pyLower c.name) (pyLower query) ||
  strContains c.ticker_symbol (pyUpper query)

/-- Python slice `xs[:limit]`, including negative-limit semantics. -/
def pySlice {α : Type} (xs : List α) (limit : Int) : List α :=
  if 0 ≤ limit then xs.take limit.toNat
  else xs.take (xs.length - (-limit).toNat)

/-- The list of company records serialized by `search_companies_db`:
`filtered_results[:limit]` (`agent.py` lines 100-107). -/
def search_companies_db_results (query : String) (limit : Int) : List Company :=
  pySlice (mock_results.filter (companyMatches query)) limit

/-- JSON string escaping for `json.dumps` (the repository's data needs only
backslash and double quote). -/
def jsonEscape (s : String) : String :=
  ⟨s.data.foldr
    (fun c acc =>
      if c == Char.ofNat 92 then Char.ofNat 92 :: Char.ofNat 92 :: acc
      else if c == Char.ofNat 34 then Char.ofNat 92 :: Char.ofNat 34 :: acc
      else c :: acc) []⟩

/-- A JSON string literal. -/
def jsonStr (s : String) : String := "\"" ++ jsonEscape s ++ "\""

/-- `json.dumps` of one company dict at `indent=2`, nested at `ind`. -/
def dumpsCompany (c : Company) (ind : String) : String :=
  ind ++ "\x7b\n" ++
  ind ++ "  " ++ jsonStr "id" ++ ": " ++ toString c.id ++ ",\n" ++
  ind ++ "  " ++ jsonStr "name" ++ ": " ++ jsonStr c.name ++ ",\n" ++
  ind ++ "  " ++ jsonStr "ticker_symbol" ++ ": " ++ jsonStr c.ticker_symbol ++ ",\n" ++
  ind ++ "  " ++ jsonStr "industry" ++ ": " ++ jsonStr c.industry ++ ",\n" ++
  ind ++ "  " ++ jsonStr "sector" ++ ": " ++ jsonStr c.sector ++ ",\n" ++
  ind ++ "  " ++ jsonStr "market_cap" ++ ": " ++ toString c.market_cap ++ ",\n" ++
  ind ++ "  " ++ jsonStr "employees" ++ ": " ++ toString c.employees ++ ",\n" ++
  ind ++ "  " ++ jsonStr "founded_year" ++ ": " ++ toString c.founded_year ++ ",\n" ++
  ind ++ "  " ++ jsonStr "headquarters" ++ ": " ++ jsonStr c.headquarters ++ ",\n" ++
  ind ++ "  " ++ jsonStr "website" ++ ": " ++ jsonStr c.website ++ ",\n" ++
  ind ++ "  " ++ jsonStr "description" ++ ": " ++ jsonStr c.description ++ "\n" ++
  ind ++ "\x7d"

/-- `json.dumps` of a list of company dicts at `indent=2`. -/
def dumpsCompanyList (cs : List Company) : String :=
  if cs.isEmpty then "[]"
  else "[\n" ++ String.intercalate ",\n" (cs.map (fun c => dumpsCompany c "  ")) ++ "\n]"

/-- `json.dumps(\x7b"error": msg\x7d, indent=2)`, the error payload shape shared
by the five agent tools (`agent.py` lines 111, 129, 147, 164, 182). -/
def errorPayload (msg : String) : String :=
  "\x7b\n  \"error\": " ++ jsonStr msg ++ "\n\x7d"

/-- `search_companies_db` (`agent.py` lines 41-111): filter the mock list by
the query, truncate to `limit`, and return the JSON serialization.  The
enclosing `try` wraps only this pure computation, so its `except` branch
(returning `errorPayload`) is unreachable. -/
def search_companies_db (query : String) (limit : Int) : String :=
  dumpsCompanyList (search_companies_db_results query limit)

/-- `search_company_openai` (`agent.py` lines 113-129): serialize the client
result (abstracted as an opaque serialized payload) or convert a raised
exception into the error payload. -/
def search_company_openai (outcome : Except String String) : String :=
  match outcome with
  | Except.ok payload => payload
  | Except.error e => errorPayload ("OpenAI search failed: " ++ e)

/-- `get_company_news` (`agent.py` lines 131-147), same shape. -/
def get_company_news (outcome : Except String String) : String :=
  match outcome with
  | Except.ok payload => payload
  | Except.error e => errorPayload ("News search failed: " ++ e)

/-- `get_company_financials` (`agent.py` lines 149-164), same shape. -/
def get_company_financials (outcome : Except String String) : String :=
  match outcome with
  | Except.ok payload => payload
  | Except.error e => errorPayload ("Financial search failed: " ++ e)

/-- `compare_companies` (`agent.py` lines 166-182), same shape. -/
def compare_companies (outcome : Except String String) : String :=
  match outcome with
  | Except.ok payload => payload
  | Except.error e => errorPayload ("Comparison failed: " ++ e)

/-! ## The database MCP server (`database_server.py`) -/

/-- A row of the `companies` table as far as the modelled queries use it
(the selected columns beyond these are opaque to the claims). -/
structure DbRow where
  id : Int
  name : String
  ticker_symbol : String
  deriving DecidableEq, Repr

/-- `get_company_by_ticker` (`database_server.py` lines 239-253): `none`
when no pool is initialized; otherwise the first row whose `ticker_symbol`
equals the uppercased argument (`WHERE ticker_symbol = $1` with
`ticker.upper()`), `none` when no row matches. -/
def get_company_by_ticker (db_pool : Option (List DbRow)) (ticker : String) :
    Option DbRow :=
  match db_pool with
  | none => none
  | some rows => rows.find? (fun r => r.ticker_symbol == pyUpper ticker)

/-- `get_company_by_id` (`database_server.py` lines 223-237). -/
def get_company_by_id (db_pool : Option (List DbRow)) (company_id : Int) :
    Option DbRow :=
  match db_pool with
  | none => none
  | some rows => rows.find? (fun r => r.id == company_id)

/-- The database operations `call_tool` dispatches to (their SQL bodies are
external collaborators; `call_tool` only serializes what they return). -/
structure DbOps where
  search_companies : String → Int → List DbRow
  filter_companies : Option String → Option String → Option Int → Option Int → Int → List DbRow
  get_by_id : Int → Option DbRow
  get_by_ticker : String → Option DbRow

/-- The `arguments` dict passed to `call_tool`, with the keys its branches
read. -/
structure CallToolArgs where
  query : Option String
  limit : Option Int
  industry : Option String
  sector : Option String
  min_market_cap : Option Int
  max_market_cap : Option Int
  company_id : Option Int
  ticker : Option String
  deriving DecidableEq, Repr

/-- `json.dumps` of one row dict at `indent=2` (modelled columns), nested
at `ind`. -/
def dumpsRow (r : DbRow) (ind : String) : String :=
  ind ++ "\x7b\n" ++
  ind ++ "  " ++ jsonStr "id" ++ ": " ++ toString r.id ++ ",\n" ++
  ind ++ "  " ++ jsonStr "name" ++ ": " ++ jsonStr r.name ++ ",\n" ++
  ind ++ "  " ++ jsonStr "ticker_symbol" ++ ": " ++ jsonStr r.ticker_symbol ++ "\n" ++
  ind ++ "\x7d"

/-- `json.dumps` of a list of row dicts at `indent=2`. -/
def dumpsRowList (rows : List DbRow) : String :=
  if rows.isEmpty then "[]"
  else "[\n" ++ String.intercalate ",\n" (rows.map (fun r => dumpsRow r "  ")) ++ "\n]"

/-- `json.dumps` of an optional row dict (`null` for `None`). -/
def dumpsOptRow (r : Option DbRow) : String :=
  match r with
  | none => "null"
  | some row => dumpsRow row ""

/-- The `call_tool` dispatcher (`database_server.py` lines 104-137).
`Except.ok` is the `TextContent` text returned to the framework;
`Except.error` models a Python exception escaping the handler (pydantic
raises `ValidationError` when `search_companies` is called without its
required `query` argument).  The `get_company_details` branch follows
Python truthiness: `company_id` of `0` and an empty `ticker` are falsy. -/
def call_tool (ops : DbOps) (name : String) (args : CallToolArgs) :
    Except String String :=
  if name == "search_companies" then
    match args.query with
    | none => Except.error "ValidationError: query field required"
    | some q => Except.ok (dumpsRowList (ops.search_companies q (args.limit.getD 10)))
  else if name == "filter_companies" then
    Except.ok (dumpsRowList
      (ops.filter_companies args.industry args.sector args.min_market_cap
        args.max_market_cap (args.limit.getD 10)))
  else if name == "get_company_details" then
    if (args.company_id.getD 0) != 0 then
      Except.ok (dumpsOptRow (ops.get_by_id (args.company_id.getD 0)))
    else if (args.ticker.getD "") != "" then
      Except.ok (dumpsOptRow (ops.get_by_ticker (args.ticker.getD "")))
    else
      Except.ok "Error: Must provide either company_id or ticker"
  else
    Except.ok ("Unknown tool: " ++ name)

/-- A `CallToolArgs` with every key absent. -/
def emptyArgs : CallToolArgs := ⟨none, none, none, none, none, none, none, none⟩

/-- A trivial `DbOps` over an in-memory table, used for concrete inputs. -/
def tableOps (rows : List DbRow) : DbOps :=
  ⟨fun _ _ => rows, fun _ _ _ _ _ => rows,
   fun i => get_company_by_id (some rows) i,
   fun t => get_company_by_ticker (some rows) t⟩

/-! ## Helper lemmas -/

/-- Appending one element makes it the last. -/
theorem getLast?_app_singleton {α : Type} (l : List α) (a : α) :
    (l ++ [a]).getLast? = some a := by
  rw [List.getLast?_append_cons]
  rfl

/-! ## C1: the approval-response classifier -/

/-- C1 counterexample: the response "yes or no" contains a keyword of the
approve set and one of the deny set, yet `check_approval_node`'s classifier
returns approval (the approve check runs first), while the claim requires a
response matching both sets to be unrecognized. -/
theorem c1_counterexample :
    matchesAny (pyStrip (pyLower "yes or no")) approveKeywords = true ∧
    matchesAny (pyStrip (pyLower "yes or no")) denyKeywords = true ∧
    classifyResponse "yes or no" = ApprovalDecision.approved := by
  refine ⟨?_, ?_, ?_⟩ <;> decide

/-- C1 (amended): classification of a free-text approval response is by
case-insensitive substring match against the two keyword sets, with the
approve set checked first: any response matching the approve set is
approval (even if it also matches the deny set); a response matching only
the deny set is denial; one matching neither set is unrecognized. -/
theorem c1_keyword_classification (raw : String) :
    (matchesAny (pyStrip (pyLower raw)) approveKeywords = true →
      classifyResponse raw = ApprovalDecision.approved) ∧
    (matchesAny (pyStrip (pyLower raw)) approveKeywords = false →
      matchesAny (pyStrip (pyLower raw)) denyKeywords = true →
      classifyResponse raw = ApprovalDecision.denied) ∧
    (matchesAny (pyStrip (pyLower raw)) approveKeywords = false →
      matchesAny (pyStrip (pyLower raw)) denyKeywords = false →
      classifyResponse raw = ApprovalDecision.unrecognized) := by
  refine ⟨fun h1 => ?_, fun h1 h2 => ?_, fun h1 h2 => ?_⟩ <;>
    simp [classifyResponse, *]

/-- C1 witness: the three branches of the amended classification at the
concrete responses "yes", "nope thanks" and "maybe". -/
theorem c1_keyword_classification_witness :
    classifyResponse "yes" = ApprovalDecision.approved ∧
    classifyResponse "nope thanks" = ApprovalDecision.denied ∧
    classifyResponse "maybe" = ApprovalDecision.unrecognized :=
  ⟨(c1_keyword_classification "yes").1 (by decide),
   (c1_keyword_classification "nope thanks").2.1 (by decide) (by decide),
   (c1_keyword_classification "maybe").2.2 (by decide) (by decide)⟩

/-! ## C2: the queue/flag invariant across the approval step -/

/-- A state satisfying the queue/flag invariant on which the fallback branch
of `check_approval_node` fires: no messages, one pending call, awaiting. -/
def c2BadState : AgentState :=
  ⟨[], [], [⟨"search_companies_db", [("query", "Apple")]⟩], true⟩

/-- C2 counterexample: on a state satisfying the invariant (non-empty queue,
awaiting-approval true) but with an empty message list, `check_approval_node`
clears only the awaiting-approval flag and leaves the queue non-empty,
so the transition leaves awaiting-approval false with a non-empty queue,
which the claim forbids. -/
theorem c2_counterexample :
    approvalInvariant c2BadState ∧
    (check_approval_node c2BadState).state.awaiting_approval = false ∧
    (check_approval_node c2BadState).state.pending_tool_calls ≠ [] := by
  refine ⟨?_, ?_, ?_⟩
  · unfold approvalInvariant
    decide
  · decide
  · decide

/-- C2 (amended): when the approval-checking step runs on a state whose
message list is non-empty and whose last message carries textual content,
the transition either clears the pending queue and the awaiting-approval
flag together (approval or denial) or leaves the queue unchanged with the
flag set (clarification); only the fallback branches for a missing or
content-less last message clear the flag while leaving a possibly non-empty
queue behind. -/
theorem c2_queue_flag_atomicity (s : AgentState) (m : Msg) (c : String)
    (hlast : s.messages.getLast? = some m) (hc : m.content = some c) :
    ((check_approval_node s).state.pending_tool_calls = [] ∧
     (check_approval_node s).state.awaiting_approval = false) ∨
    ((check_approval_node s).state.pending_tool_calls = s.pending_tool_calls ∧
     (check_approval_node s).state.awaiting_approval = true) := by
  unfold check_approval_node
  simp only [hlast, hc]
  cases hcl : classifyResponse c <;> simp

/-- A state with one pending call awaiting approval whose last message is
the free-text reply "maybe". -/
def c2WitState : AgentState :=
  ⟨[⟨some "maybe", []⟩], [], [⟨"search_companies_db", [("query", "Apple")]⟩], true⟩

/-- C2 witness: the atomicity theorem applied to a concrete awaiting state
whose last message is "maybe". -/
theorem c2_queue_flag_atomicity_witness :
    ((check_approval_node c2WitState).state.pending_tool_calls = [] ∧
     (check_approval_node c2WitState).state.awaiting_approval = false) ∨
    ((check_approval_node c2WitState).state.pending_tool_calls =
       c2WitState.pending_tool_calls ∧
     (check_approval_node c2WitState).state.awaiting_approval = true) :=
  c2_queue_flag_atomicity c2WitState ⟨some "maybe", []⟩ "maybe" (by decide) (by decide)

/-! ## C8: clarification never touches the pending queue -/

/-- One unrecognized submission leaves the pending queue unchanged. -/
theorem submit_unrecognized_pending (s : AgentState) (r : String)
    (h : classifyResponse r = ApprovalDecision.unrecognized) :
    (submit_response s r).pending_tool_calls = s.pending_tool_calls := by
  unfold submit_response check_approval_node
  simp only [getLast?_app_singleton]
  simp [h]

/-- C8: for every state and every response classified as unrecognized,
submitting that response twice in succession leaves the pending execution
queue identical to the original after each submission. -/
theorem c8_clarification_idempotent (s : AgentState) (r : String)
    (h : classifyResponse r = ApprovalDecision.unrecognized) :
    (submit_response s r).pending_tool_calls = s.pending_tool_calls ∧
    (submit_response (submit_response s r) r).pending_tool_calls =
      s.pending_tool_calls := by
  have h1 := submit_unrecognized_pending s r h
  have h2 := submit_unrecognized_pending (submit_response s r) r h
  exact ⟨h1, h2.trans h1⟩

/-- A pending state used as the C8 concrete input. -/
def c8WitState : AgentState :=
  ⟨[], [], [⟨"get_company_news", [("company_name", "Tesla")]⟩], true⟩

/-- C8 witness: the idempotence theorem at the concrete unrecognized
response "maybe". -/
theorem c8_clarification_idempotent_witness :
    (submit_response c8WitState "maybe").pending_tool_calls =
      c8WitState.pending_tool_calls ∧
    (submit_response (submit_response c8WitState "maybe") "maybe").pending_tool_calls =
      c8WitState.pending_tool_calls :=
  c8_clarification_idempotent c8WitState "maybe" (by decide)

/-! ## C4: the auto-approve routing of `chat_node` -/

/-- C4: whenever the model response is an `AIMessage` containing at least
one non-CopilotKit (execution) tool call, `chat_node` routes directly to
`tool_node` in the same turn, appending only the response message and never
setting the awaiting-approval flag or the pending queue. -/
theorem c4_auto_approve (s : AgentState) (r : ModelResponse)
    (hai : r.isAIMessage = true)
    (hexec : non_copilotkit_calls r.tool_calls s.copilotkit_actions ≠ []) :
    (chat_node s r).goto = NodeGoto.toolNode ∧
    (chat_node s r).state.awaiting_approval = s.awaiting_approval ∧
    (chat_node s r).state.pending_tool_calls = s.pending_tool_calls ∧
    (chat_node s r).state.messages = s.messages ++ [respMsg r] := by
  have htc : r.tool_calls ≠ [] := by
    intro h0
    apply hexec
    simp [non_copilotkit_calls, h0]
  have h1 : r.tool_calls.isEmpty = false := by
    simpa [List.isEmpty_iff] using htc
  have h2 : (non_copilotkit_calls r.tool_calls s.copilotkit_actions).isEmpty = false := by
    simpa [List.isEmpty_iff] using hexec
  simp [chat_node, hai, h1, h2]

/-- C4 witness: a concrete response requesting the database search while the
renderer offers only `displayCompanyInfo` routes to `tool_node` with the
approval-gate fields untouched. -/
theorem c4_auto_approve_witness :
    (chat_node ⟨[], [⟨"displayCompanyInfo"⟩], [], false⟩
      ⟨true, "", [⟨"search_companies_db", [("query", "Apple")]⟩]⟩).goto =
        NodeGoto.toolNode ∧
    (chat_node ⟨[], [⟨"displayCompanyInfo"⟩], [], false⟩
      ⟨true, "", [⟨"search_companies_db", [("query", "Apple")]⟩]⟩).state.awaiting_approval =
        (⟨[], [⟨"displayCompanyInfo"⟩], [], false⟩ : AgentState).awaiting_approval ∧
    (chat_node ⟨[], [⟨"displayCompanyInfo"⟩], [], false⟩
      ⟨true, "", [⟨"search_companies_db", [("query", "Apple")]⟩]⟩).state.pending_tool_calls =
        (⟨[], [⟨"displayCompanyInfo"⟩], [], false⟩ : AgentState).pending_tool_calls ∧
    (chat_node ⟨[], [⟨"displayCompanyInfo"⟩], [], false⟩
      ⟨true, "", [⟨"search_companies_db", [("query", "Apple")]⟩]⟩).state.messages =
        (⟨[], [⟨"displayCompanyInfo"⟩], [], false⟩ : AgentState).messages ++
          [respMsg ⟨true, "", [⟨"search_companies_db", [("query", "Apple")]⟩]⟩] :=
  c4_auto_approve ⟨[], [⟨"displayCompanyInfo"⟩], [], false⟩
    ⟨true, "", [⟨"search_companies_db", [("query", "Apple")]⟩]⟩ (by decide) (by decide)

/-! ## C5: classification is a pure partition -/

/-- C5: every requested tool call is classified by name against the
supplied CopilotKit action descriptors: it is in the CopilotKit (presentation)
set exactly when some supplied action shares its name, in the execution set
exactly otherwise, it lies in exactly one of the two sets, and a name that
is also a registered backend tool name still classifies as presentation
when a supplied action offers it. -/
theorem c5_classification (toolCalls : List ToolCall) (actions : List ActionDesc)
    (tc : ToolCall) (htc : tc ∈ toolCalls) :
    (tc ∈ copilotkit_matched_calls toolCalls actions ↔
      actions.any (fun a => a.name == tc.name) = true) ∧
    (tc ∈ non_copilotkit_calls toolCalls actions ↔
      actions.any (fun a => a.name == tc.name) = false) ∧
    ((tc ∈ copilotkit_matched_calls toolCalls actions ∧
      tc ∉ non_copilotkit_calls toolCalls actions) ∨
     (tc ∉ copilotkit_matched_calls toolCalls actions ∧
      tc ∈ non_copilotkit_calls toolCalls actions)) ∧
    (tc.name ∈ registered_tool_names →
      (∃ a ∈ actions, a.name = tc.name) →
      tc ∈ copilotkit_matched_calls toolCalls actions) := by
  have hm : tc ∈ copilotkit_matched_calls toolCalls actions ↔
      actions.any (fun a => a.name == tc.name) = true := by
    simp [copilotkit_matched_calls, List.mem_filter, htc]
  have hn : tc ∈ non_copilotkit_calls toolCalls actions ↔
      actions.any (fun a => a.name == tc.name) = false := by
    simp [non_copilotkit_calls, List.mem_filter, htc]
  refine ⟨hm, hn, ?_, ?_⟩
  · cases hb : actions.any (fun a => a.name == tc.name) with
    | true =>
      left
      refine ⟨hm.mpr hb, fun hcon => ?_⟩
      rw [hn] at hcon
      rw [hb] at hcon
      exact Bool.true_eq_false.mp hcon
    | false =>
      right
      refine ⟨fun hcon => ?_, hn.mpr hb⟩
      rw [hm] at hcon
      rw [hb] at hcon
      exact Bool.false_eq_true.mp hcon
  · intro _ hex
    apply hm.mpr
    rw [List.any_eq_true]
    obtain ⟨a, ha, hname⟩ := hex
    exact ⟨a, ha, by simp [hname]⟩

/-- C5 witness: a call named `search_companies_db` while the renderer also
offers an action of that very name is classified as presentation. -/
theorem c5_classification_witness :
    (⟨"search_companies_db", []⟩ ∈
      copilotkit_matched_calls [⟨"search_companies_db", []⟩] [⟨"search_companies_db"⟩] ↔
      ([⟨"search_companies_db"⟩] : List ActionDesc).any
        (fun a => a.name == (⟨"search_companies_db", []⟩ : ToolCall).name) = true) ∧
    (⟨"search_companies_db", []⟩ ∈
      non_copilotkit_calls [⟨"search_companies_db", []⟩] [⟨"search_companies_db"⟩] ↔
      ([⟨"search_companies_db"⟩] : List ActionDesc).any
        (fun a => a.name == (⟨"search_companies_db", []⟩ : ToolCall).name) = false) ∧
    ((⟨"search_companies_db", []⟩ ∈
        copilotkit_matched_calls [⟨"search_companies_db", []⟩] [⟨"search_companies_db"⟩] ∧
      ⟨"search_companies_db", []⟩ ∉
        non_copilotkit_calls [⟨"search_companies_db", []⟩] [⟨"search_companies_db"⟩]) ∨
     (⟨"search_companies_db", []⟩ ∉
        copilotkit_matched_calls [⟨"search_companies_db", []⟩] [⟨"search_companies_db"⟩] ∧
      ⟨"search_companies_db", []⟩ ∈
        non_copilotkit_calls [⟨"search_companies_db", []⟩] [⟨"search_companies_db"⟩])) ∧
    ((⟨"search_companies_db", []⟩ : ToolCall).name ∈ registered_tool_names →
      (∃ a ∈ ([⟨"search_companies_db"⟩] : List ActionDesc),
        a.name = (⟨"search_companies_db", []⟩ : ToolCall).name) →
      ⟨"search_companies_db", []⟩ ∈
        copilotkit_matched_calls [⟨"search_companies_db", []⟩] [⟨"search_companies_db"⟩]) :=
  c5_classification [⟨"search_companies_db", []⟩] [⟨"search_companies_db"⟩]
    ⟨"search_companies_db", []⟩ (by decide)

/-! ## C6: a response with zero tool calls ends the turn -/

/-- C6: for every state and every model response with zero tool calls,
`chat_node` appends the assistant message and routes to the graph end,
with no approval step and no change to the pending queue or the flag,
regardless of the prior conversation state. -/
theorem c6_zero_actions_terminal (s : AgentState) (r : ModelResponse)
    (h : r.tool_calls = []) :
    (chat_node s r).goto = NodeGoto.graphEnd ∧
    (chat_node s r).state.messages = s.messages ++ [respMsg r] ∧
    (chat_node s r).state.pending_tool_calls = s.pending_tool_calls ∧
    (chat_node s r).state.awaiting_approval = s.awaiting_approval := by
  simp [chat_node, h]

/-- C6 witness: a plain-text final answer after an earlier execution round
ends the graph and leaves the approval fields untouched. -/
theorem c6_zero_actions_terminal_witness :
    (chat_node ⟨[⟨some "earlier turn", [⟨"get_company_news", []⟩]⟩], [], [], false⟩
      ⟨true, "Here is the summary.", []⟩).goto = NodeGoto.graphEnd ∧
    (chat_node ⟨[⟨some "earlier turn", [⟨"get_company_news", []⟩]⟩], [], [], false⟩
      ⟨true, "Here is the summary.", []⟩).state.messages =
        (⟨[⟨some "earlier turn", [⟨"get_company_news", []⟩]⟩], [], [], false⟩ :
          AgentState).messages ++ [respMsg ⟨true, "Here is the summary.", []⟩] ∧
    (chat_node ⟨[⟨some "earlier turn", [⟨"get_company_news", []⟩]⟩], [], [], false⟩
      ⟨true, "Here is the summary.", []⟩).state.pending_tool_calls =
        (⟨[⟨some "earlier turn", [⟨"get_company_news", []⟩]⟩], [], [], false⟩ :
          AgentState).pending_tool_calls ∧
    (chat_node ⟨[⟨some "earlier turn", [⟨"get_company_news", []⟩]⟩], [], [], false⟩
      ⟨true, "Here is the summary.", []⟩).state.awaiting_approval =
        (⟨[⟨some "earlier turn", [⟨"get_company_news", []⟩]⟩], [], [], false⟩ :
          AgentState).awaiting_approval :=
  c6_zero_actions_terminal
    ⟨[⟨some "earlier turn", [⟨"get_company_news", []⟩]⟩], [], [], false⟩
    ⟨true, "Here is the summary.", []⟩ (by decide)

/-! ## C7: the human-readable per-call descriptions -/

/-- C7 counterexample: the database search action renders as
"Search database for companies matching: ..." and not as the
"Search for companies matching: ..." template the claim states. -/
theorem c7_counterexample :
    tool_description "search_companies_db" [("query", "Apple")] =
      "Search database for companies matching: " ++ pyQuote ++ "Apple" ++ pyQuote ∧
    tool_description "search_companies_db" [("query", "Apple")] ≠
      "Search for companies matching: " ++ pyQuote ++ "Apple" ++ pyQuote := by
  refine ⟨?_, ?_⟩ <;> decide

/-- C7 (amended): each pending execution action receives a deterministic
one-line description built from its key arguments; the five registered tool
names use their specific templates exactly as in the source (the database
search one reading "Search database for companies matching: ..."), and any
other name falls back to "Execute <name> with args: <args-dict>". -/
theorem c7_descriptions (args : List (String × String)) :
    tool_description "search_companies_db" args =
      "Search database for companies matching: " ++ pyQuote ++ argGet args "query" ++ pyQuote ∧
    tool_description "search_company_openai" args =
      "Get AI analysis for company: " ++ pyQuote ++ argGet args "company_name" ++ pyQuote ∧
    tool_description "get_company_news" args =
      "Get recent news for company: " ++ pyQuote ++ argGet args "company_name" ++ pyQuote ∧
    tool_description "get_company_financials" args =
      "Get financial data for company: " ++ pyQuote ++ argGet args "company_name" ++ pyQuote ∧
    tool_description "compare_companies" args =
      "Compare companies: " ++ pyQuote ++ argGet args "company1" ++ pyQuote ++
      " vs " ++ pyQuote ++ argGet args "company2" ++ pyQuote ∧
    (∀ name, name ∉ registered_tool_names →
      tool_description name args =
        "Execute " ++ name ++ " with args: " ++ pyDictRepr args) := by
  refine ⟨rfl, rfl, rfl, rfl, rfl, fun name hname => ?_⟩
  simp only [registered_tool_names, List.mem_cons, List.not_mem_nil, or_false] at hname
  push_neg at hname
  obtain ⟨h1, h2, h3, h4, h5⟩ := hname
  simp [tool_description, h1, h2, h3, h4, h5]

/-- C7 witness: the database-search template and the generic fallback at
concrete arguments. -/
theorem c7_descriptions_witness :
    tool_description "search_companies_db" [("query", "Apple")] =
      "Search database for companies matching: " ++ pyQuote ++
        argGet [("query", "Apple")] "query" ++ pyQuote ∧
    tool_description "frobnicate" [("x", "1")] =
      "Execute " ++ "frobnicate" ++ " with args: " ++ pyDictRepr [("x", "1")] :=
  ⟨(c7_descriptions [("query", "Apple")]).1,
   (c7_descriptions [("x", "1")]).2.2.2.2.2 "frobnicate" (by decide)⟩

/-! ## C3: error shapes at the tool boundary -/

/-- C3 counterexample: `call_tool` answers a `get_company_details` call that
supplies neither `company_id` nor `ticker` with the plain string
"Error: Must provide either company_id or ticker", which is not the JSON
error document `errorPayload msg` for any message (every `errorPayload`
starts with an opening brace). -/
theorem c3_counterexample :
    call_tool (tableOps []) "get_company_details" emptyArgs =
      Except.ok "Error: Must provide either company_id or ticker" ∧
    (∀ msg, errorPayload msg ≠ "Error: Must provide either company_id or ticker") := by
  refine ⟨rfl, fun msg h => ?_⟩
  have h0 : (errorPayload msg).data.head? = some (Char.ofNat 123) := rfl
  rw [h] at h0
  exact absurd h0 (by decide)

/-- C3 (amended): the agent's tools convert internal failures to the JSON
document `\x7b"error": "<message>"\x7d`, but the database server's `call_tool`
dispatcher does not follow that shape for its invalid-argument and
unknown-tool conditions: it returns the plain texts
"Error: Must provide either company_id or ticker" and "Unknown tool: <name>". -/
theorem c3_error_shapes (e : String) (ops : DbOps) (args : CallToolArgs)
    (name : String) :
    search_company_openai (Except.error e) =
      errorPayload ("OpenAI search failed: " ++ e) ∧
    get_company_news (Except.error e) =
      errorPayload ("News search failed: " ++ e) ∧
    get_company_financials (Except.error e) =
      errorPayload ("Financial search failed: " ++ e) ∧
    compare_companies (Except.error e) =
      errorPayload ("Comparison failed: " ++ e) ∧
    (args.company_id = none → args.ticker = none →
      call_tool ops "get_company_details" args =
        Except.ok "Error: Must provide either company_id or ticker") ∧
    (name ≠ "search_companies" → name ≠ "filter_companies" →
      name ≠ "get_company_details" →
      call_tool ops name args = Except.ok ("Unknown tool: " ++ name)) := by
  refine ⟨rfl, rfl, rfl, rfl, fun h1 h2 => ?_, fun h1 h2 h3 => ?_⟩
  · unfold call_tool
    rw [h1, h2]
    rfl
  · simp [call_tool, h1, h2, h3]

/-- C3 witness: the error shapes at a concrete exception message, the
argument-free details call, and a concrete unknown tool name. -/
theorem c3_error_shapes_witness :
    search_company_openai (Except.error "timeout") =
      errorPayload ("OpenAI search failed: " ++ "timeout") ∧
    call_tool (tableOps []) "get_company_details" emptyArgs =
      Except.ok "Error: Must provide either company_id or ticker" ∧
    call_tool (tableOps []) "frobnicate" emptyArgs =
      Except.ok ("Unknown tool: " ++ "frobnicate") :=
  ⟨(c3_error_shapes "timeout" (tableOps []) emptyArgs "frobnicate").1,
   (c3_error_shapes "timeout" (tableOps []) emptyArgs "frobnicate").2.2.2.2.1
     (by decide) (by decide),
   (c3_error_shapes "timeout" (tableOps []) emptyArgs "frobnicate").2.2.2.2.2
     (by decide) (by decide) (by decide)⟩

/-! ## C9: the mock database search -/

/-- C9 counterexample: with the empty query (which matches every mock
record) and `limit = -1`, Python slice semantics return two entries, so the
result does not have "at most `limit`" entries. -/
theorem c9_counterexample :
    (search_companies_db_results "" (-1)).length = 2 ∧
    ¬ (((search_companies_db_results "" (-1)).length : Int) ≤ -1) := by
  refine ⟨?_, ?_⟩ <;> decide

/-- C9 (amended): for every query and every non-negative limit, the search
returns the matching prefix of the fixed three-company mock list: at most
`limit` entries, drawn in order (a sublist of the mock list), exactly the
truncation of the records whose lowercased name contains the lowercased
query or whose ticker symbol contains the uppercased query; the returned
text is the JSON serialization of that sublist, and the query "Apple"
selects exactly the Apple Inc. record. -/
theorem c9_search_filter (query : String) (limit : Int) (h : 0 ≤ limit) :
    ((search_companies_db_results query limit).length : Int) ≤ limit ∧
    search_companies_db_results query limit =
      (mock_results.filter (companyMatches query)).take limit.toNat ∧
    List.Sublist (search_companies_db_results query limit) mock_results ∧
    (∀ c, c ∈ mock_results.filter (companyMatches query) ↔
      c ∈ mock_results ∧
        (strContains (pyLower c.name) (pyLower query) ||
         strContains c.ticker_symbol (pyUpper query)) = true) ∧
    search_companies_db query limit =
      dumpsCompanyList (search_companies_db_results query limit) ∧
    search_companies_db_results "Apple" 10 = [appleInc] := by
  have heq : search_companies_db_results query limit =
      (mock_results.filter (companyMatches query)).take limit.toNat := by
    simp [search_companies_db_results, pySlice, h]
  refine ⟨?_, heq, ?_, ?_, rfl, by decide⟩
  · have hlen : (search_companies_db_results query limit).length ≤ limit.toNat := by
      rw [heq]
      exact List.length_take_le _ _
    have hnn := Int.toNat_of_nonneg h
    omega
  · rw [heq]
    exact (List.take_sublist _ _).trans (List.filter_sublist _)
  · intro c
    simp [List.mem_filter, companyMatches]

/-- C9 witness: the amended search theorem at query "Apple" and limit 10. -/
theorem c9_search_filter_witness :
    ((search_companies_db_results "Apple" 10).length : Int) ≤ 10 ∧
    search_companies_db_results "Apple" 10 = [appleInc] :=
  ⟨(c9_search_filter "Apple" 10 (by decide)).1,
   (c9_search_filter "Apple" 10 (by decide)).2.2.2.2.2⟩

/-! ## C10: ticker lookup -/

/-- C10: `get_company_by_ticker` uppercases the ticker before the exact
match, so any two tickers with equal uppercasings give the same result;
with no database pool the result is `None`, and with no matching row the
result is `None` rather than an error. -/
theorem c10_ticker_case_independent (db : Option (List DbRow)) (t1 t2 : String)
    (h : pyUpper t1 = pyUpper t2) :
    get_company_by_ticker db t1 = get_company_by_ticker db t2 ∧
    get_company_by_ticker none t1 = none ∧
    (∀ rows, db = some rows →
      (∀ r ∈ rows, r.ticker_symbol ≠ pyUpper t1) →
      get_company_by_ticker db t1 = none) := by
  refine ⟨?_, rfl, ?_⟩
  · cases db with
    | none => rfl
    | some rows => simp [get_company_by_ticker, h]
  · intro rows hdb hnone
    subst hdb
    rw [get_company_by_ticker, List.find?_eq_none]
    intro r hr
    simpa using hnone r hr

/-- A one-row table holding the Apple row. -/
def appleTable : List DbRow := [⟨1, "Apple Inc.", "AAPL"⟩]

/-- C10 witness: "aapl" and "AAPL" give the same lookup result on a concrete
table, the pool-less lookup gives `None`, and a non-matching ticker gives
`None`. -/
theorem c10_ticker_case_independent_witness :
    get_company_by_ticker (some appleTable) "aapl" =
      get_company_by_ticker (some appleTable) "AAPL" ∧
    get_company_by_ticker none "aapl" = none ∧
    get_company_by_ticker (some appleTable) "zzz" = none :=
  ⟨(c10_ticker_case_independent (some appleTable) "aapl" "AAPL" (by decide)).1,
   (c10_ticker_case_independent (some appleTable) "aapl" "AAPL" (by decide)).2.1,
   (c10_ticker_case_independent (some appleTable) "zzz" "zzz" rfl).2.2
     appleTable rfl (by decide)⟩
